/-
Verification of the refresh-token lifecycle of learn_fastapi_auth.

Shallow embedding of the relevant source modules:
  * learn_fastapi_auth/refresh_token.py  (token manager: create / validate /
    revoke / revoke-all / cookie settings)
  * learn_fastapi_auth/routers/auth_routes.py  (POST /api/auth/refresh handler)
  * learn_fastapi_auth/core/middleware.py  (_add_refresh_token_on_login)
  * learn_fastapi_auth/config.py  (Config defaults)

Modelling conventions:
  * The refresh_tokens table is a `List RefreshTokenRecord`; the database
    session is explicit state passing (store in, store out).
  * Timestamps are integer seconds (`Int`); `datetime.now(timezone.utc)` is an
    explicit `now` argument.
  * UUIDs are `Nat`; token strings are `String`.
  * The cryptographically random token produced by `secrets.token_urlsafe(48)`
    is an explicit argument (nondeterminism made explicit); the primary-key
    constraint of the `refresh_tokens` table turns a duplicate insert into an
    `Except.error` (IntegrityError).
-/
import Mathlib

namespace LearnFastapiAuth

/-- A row of the `refresh_tokens` table (models.py, class RefreshToken):
token is the primary key, user_id a foreign key, expires_at a timestamp.
`created_at` is never read by the verified code paths and is omitted. -/
structure RefreshTokenRecord where
  token : String
  user_id : Nat
  expires_at : Int
deriving Repr, DecidableEq

/-- The configuration fields read by the refresh-token subsystem
(config.py, class Config). -/
structure Config where
  refresh_token_lifetime : Int
  remember_me_refresh_token_lifetime : Int
  refresh_token_cookie_name : String
  refresh_token_cookie_secure : Bool
  refresh_token_cookie_samesite : String
deriving Repr, DecidableEq

/-- The default configuration values of Config.from_env (config.py lines
91-107) when no environment variable overrides them:
REFRESH_TOKEN_LIFETIME 604800 (7 days),
REMEMBER_ME_REFRESH_TOKEN_LIFETIME 2592000 (30 days),
cookie name "refresh_token", secure False, samesite "lax". -/
def defaultConfig : Config :=
  { refresh_token_lifetime := 604800
    remember_me_refresh_token_lifetime := 2592000
    refresh_token_cookie_name := "refresh_token"
    refresh_token_cookie_secure := false
    refresh_token_cookie_samesite := "lax" }

/-- `session.execute(select(RefreshToken).where(RefreshToken.token == t))`
followed by `.scalar_one_or_none()`: point lookup by primary key.
With the primary-key invariant (no two rows share a token) at most one row
matches, so `List.find?` is the faithful translation. -/
def scalar_one_or_none (store : List RefreshTokenRecord) (token_str : String) :
    Option RefreshTokenRecord :=
  store.find? (fun r => r.token == token_str)

/-- create_refresh_token (refresh_token.py lines 41-72).
`token_str` stands for the value returned by generate_refresh_token();
`actual_lifetime` falls back to config.refresh_token_lifetime when the
argument is None; `expires_at = now + lifetime`; `session.add` + commit
inserts the row, and the primary-key constraint rejects a duplicate token
(modelled as `Except.error ()`). Returns the token string. -/
def create_refresh_token (store : List RefreshTokenRecord) (token_str : String)
    (user_id : Nat) (now : Int) (lifetime_seconds : Option Int) (cfg : Config) :
    Except Unit (String × List RefreshTokenRecord) :=
  let actual_lifetime := lifetime_seconds.getD cfg.refresh_token_lifetime
  let expires_at := now + actual_lifetime
  if store.any (fun r => r.token == token_str) then
    Except.error ()
  else
    Except.ok (token_str, store ++ [⟨token_str, user_id, expires_at⟩])

/-- validate_refresh_token (refresh_token.py lines 75-113).
Looks the token up; absent row yields None; a row with
`expires_at <= now` is deleted (lazy cleanup) and yields None;
otherwise the row's user_id is returned. The returned list is the
store after the call (`session.delete` removes the row keyed by the
token primary key). -/
def validate_refresh_token (store : List RefreshTokenRecord) (token_str : String)
    (now : Int) : Option Nat × List RefreshTokenRecord :=
  match scalar_one_or_none store token_str with
  | none => (none, store)
  | some refresh_token =>
    if refresh_token.expires_at ≤ now then
      (none, store.filter (fun r => !(r.token == refresh_token.token)))
    else
      (some refresh_token.user_id, store)

/-- revoke_refresh_token (refresh_token.py lines 116-142).
Looks the token up; deletes the row and returns true when found,
returns false otherwise. -/
def revoke_refresh_token (store : List RefreshTokenRecord) (token_str : String) :
    Bool × List RefreshTokenRecord :=
  match scalar_one_or_none store token_str with
  | some refresh_token =>
      (true, store.filter (fun r => !(r.token == refresh_token.token)))
  | none => (false, store)

/-- revoke_all_user_refresh_tokens (refresh_token.py lines 145-166).
A single bulk `DELETE FROM refresh_tokens WHERE user_id = :user_id`;
the result is the rowcount (number of deleted rows) and the remaining
table. -/
def revoke_all_user_refresh_tokens (store : List RefreshTokenRecord)
    (user_id : Nat) : Nat × List RefreshTokenRecord :=
  ((store.filter (fun r => r.user_id == user_id)).length,
   store.filter (fun r => !(r.user_id == user_id)))

/-- cleanup_expired_tokens (refresh_token.py lines 169-189).
Bulk delete of every row with `expires_at <= now`, returning the rowcount. -/
def cleanup_expired_tokens (store : List RefreshTokenRecord) (now : Int) :
    Nat × List RefreshTokenRecord :=
  ((store.filter (fun r => r.expires_at ≤ now)).length,
   store.filter (fun r => !(r.expires_at ≤ now)))

/-- The dictionary returned by get_refresh_token_cookie_settings
(refresh_token.py lines 192-214), one field per dictionary key. -/
structure CookieSettings where
  key : String
  httponly : Bool
  secure : Bool
  samesite : String
  max_age : Int
  path : String
deriving Repr, DecidableEq

/-- get_refresh_token_cookie_settings (refresh_token.py lines 192-214).
Pure function of the lifetime argument and the configuration: falls back
to config.refresh_token_lifetime when the argument is None, hard-codes
httponly = True and path = "/api/auth", and takes name / secure / samesite
from the configuration. -/
def get_refresh_token_cookie_settings (lifetime_seconds : Option Int)
    (cfg : Config) : CookieSettings :=
  let actual_lifetime := lifetime_seconds.getD cfg.refresh_token_lifetime
  { key := cfg.refresh_token_cookie_name
    httponly := true
    secure := cfg.refresh_token_cookie_secure
    samesite := cfg.refresh_token_cookie_samesite
    max_age := actual_lifetime
    path := "/api/auth" }

/-- The primary-key invariant of the `refresh_tokens` table: no two rows
share a token string. -/
def uniqueTokens (store : List RefreshTokenRecord) : Prop :=
  store.Pairwise (fun a b => a.token ≠ b.token)

example : (validate_refresh_token [⟨"a", 7, 200⟩] "a" 100).1 = some 7 := by decide

example : (validate_refresh_token [⟨"a", 7, 50⟩] "a" 100) = (none, []) := by decide

example : (revoke_all_user_refresh_tokens [⟨"a", 1, 5⟩, ⟨"b", 2, 5⟩] 1) =
    (1, [⟨"b", 2, 5⟩]) := by decide

/-- The fields of the `users` table read by the refresh endpoint
(models.py, class User): id and is_active. -/
structure User where
  id : Nat
  is_active : Bool
deriving Repr, DecidableEq

/-- Outcome of the refresh endpoint: either an HTTPException with status 401
and a detail code, or a 200 TokenRefreshResponse whose token_type defaults
to "bearer" (schemas.py lines 91-95). -/
inductive RefreshResult where
  | http401 (detail : String)
  | ok200 (access_token : String) (token_type : String)
deriving Repr, DecidableEq

/-- refresh_access_token (auth_routes.py lines 132-180).
`cookie` is `request.cookies.get(cookie_name)`: `none` when the cookie is
absent. The Python guard `if not refresh_token` is truthiness: it also
fires on the empty string. Then validate_refresh_token runs (possibly
performing the lazy delete), the user row is looked up by id, and an
inactive or missing user is rejected; otherwise `jwt_strategy.write_token`
(modelled as the oracle `write_token` on the user id) mints an access
token. The returned list is the store after the call. -/
def refresh_access_token (users : List User) (store : List RefreshTokenRecord)
    (cookie : Option String) (now : Int) (write_token : Nat → String) :
    RefreshResult × List RefreshTokenRecord :=
  match cookie with
  | none => (RefreshResult.http401 "REFRESH_TOKEN_MISSING", store)
  | some refresh_token =>
    if refresh_token == "" then
      (RefreshResult.http401 "REFRESH_TOKEN_MISSING", store)
    else
      match validate_refresh_token store refresh_token now with
      | (none, store2) => (RefreshResult.http401 "REFRESH_TOKEN_INVALID", store2)
      | (some uid, store2) =>
        match users.find? (fun u => u.id == uid) with
        | none => (RefreshResult.http401 "USER_INACTIVE", store2)
        | some user =>
          if !user.is_active then
            (RefreshResult.http401 "USER_INACTIVE", store2)
          else
            (RefreshResult.ok200 (write_token user.id) "bearer", store2)

/-- The response body of the upstream login handler as seen by the
middleware after draining: empty (`b""`, falsy in Python), nonempty but
not valid JSON (`json.loads` raises), or a JSON object whose
"access_token" entry is the given optional string. -/
inductive BodyJson where
  | empty
  | invalid
  | obj (access_token : Option String)
deriving Repr, DecidableEq

/-- The observable part of the response the middleware hands back:
status code plus the optional refresh-token Set-Cookie
(cookie value and cookie settings). -/
structure MwResponse where
  status : Nat
  cookie : Option (String × CookieSettings)
deriving Repr, DecidableEq

/-- Python str.lower restricted to ASCII-lowercasing each character
(executable counterpart of String.toLower, which does the same
character-wise Char.toLower map). -/
def lower (s : String) : String :=
  String.mk (s.data.map Char.toLower)

/-- The remember_me extraction of middleware.py lines 329-336:
`parse_qs(body).get("remember_me", ["false"])[0].lower() == "true"`.
`remember_me_field` is the first value of the form field, `none` when the
field is absent (or the body failed to parse, which the bare except of
line 335 maps to the same False). -/
def parse_remember_me (remember_me_field : Option String) : Bool :=
  match remember_me_field with
  | some v => lower v == "true"
  | none => false

/-- _add_refresh_token_on_login (middleware.py lines 270-404), response side.
Inputs: request path and method, the remember_me form field, the upstream
response status and drained body, oracles for `jwt.decode` without
signature verification (`none` = raises; `some s` = payload whose "sub"
entry is `s`) and for `uuid.UUID` parsing (`none` = raises), the freshly
generated refresh-token string, the store, the clock and the config.

Result: `Except.error ()` when an exception escapes the middleware
(the server turns it into a 500-class error), else the response and the
store after the call. The try of lines 358-393 catches every failure of
steps 4-7 (`except Exception: pass`) and falls through to line 398, which
re-parses the drained body: an empty body yields 200 with `{}` and no
cookie, a parseable body yields 200 with the original body and no cookie,
and a nonempty unparseable body makes line 399 raise outside the try. -/
def add_refresh_token_on_login (path method : String)
    (remember_me_field : Option String)
    (resp_status : Nat) (resp_body : BodyJson)
    (jwt_decode : String → Option (Option String))
    (parse_uuid : String → Option Nat)
    (generated_token : String)
    (store : List RefreshTokenRecord) (now : Int) (cfg : Config) :
    Except Unit (MwResponse × List RefreshTokenRecord) :=
  let is_login := path == "/api/auth/login" && method == "POST"
  let remember_me := if is_login then parse_remember_me remember_me_field else false
  if is_login && resp_status == 200 then
    let fall_through : Except Unit (MwResponse × List RefreshTokenRecord) :=
      match resp_body with
      | BodyJson.empty => Except.ok ({ status := resp_status, cookie := none }, store)
      | BodyJson.invalid => Except.error ()
      | BodyJson.obj _ => Except.ok ({ status := resp_status, cookie := none }, store)
    match resp_body with
    | BodyJson.obj (some access_token) =>
      if access_token == "" then fall_through
      else
        match jwt_decode access_token with
        | none => fall_through
        | some sub =>
          match sub with
          | none => fall_through
          | some user_id =>
            if user_id == "" then fall_through
            else
              match parse_uuid user_id with
              | none => fall_through
              | some uid =>
                let token_lifetime :=
                  if remember_me then cfg.remember_me_refresh_token_lifetime
                  else cfg.refresh_token_lifetime
                match create_refresh_token store generated_token uid now
                    (some token_lifetime) cfg with
                | Except.error _ => fall_through
                | Except.ok (tok, store2) =>
                  Except.ok
                    ({ status := resp_status
                       cookie := some (tok,
                         get_refresh_token_cookie_settings (some token_lifetime) cfg) },
                     store2)
    | _ => fall_through
  else
    Except.ok ({ status := resp_status, cookie := none }, store)

/-- Status of the response produced by the middleware, `none` when an
exception escaped it. -/
def mw_status (e : Except Unit (MwResponse × List RefreshTokenRecord)) :
    Option Nat :=
  match e with
  | Except.ok (r, _) => some r.status
  | Except.error _ => none

/-- Max-Age of the refresh-token Set-Cookie produced by the middleware,
`none` when there is no cookie or an exception escaped. -/
def mw_cookie_max_age (e : Except Unit (MwResponse × List RefreshTokenRecord)) :
    Option Int :=
  match e with
  | Except.ok (r, _) =>
    match r.cookie with
    | some c => some c.2.max_age
    | none => none
  | Except.error _ => none

example :
    add_refresh_token_on_login "/api/auth/login" "POST" none 200
      (BodyJson.obj (some "at")) (fun _ => some (some "u")) (fun _ => some 3)
      "g1" [] 0 defaultConfig =
    Except.ok
      ({ status := 200
         cookie := some ("g1",
           get_refresh_token_cookie_settings (some 604800) defaultConfig) },
       [⟨"g1", 3, 604800⟩]) := rfl

example :
    mw_cookie_max_age (add_refresh_token_on_login "/api/auth/login" "POST"
      (some "True") 200 (BodyJson.obj (some "at")) (fun _ => some (some "u"))
      (fun _ => some 3) "g1" [] 0 defaultConfig) = some 2592000 := rfl

example : parse_remember_me (some "TRUE") = true := by decide

example : parse_remember_me (some "false") = false := by decide

example : parse_remember_me none = false := by decide

example :
    add_refresh_token_on_login "/api/auth/login" "POST" none 200
      (BodyJson.obj none) (fun _ => none) (fun _ => none) "g1" [] 0
      defaultConfig =
    Except.ok ({ status := 200, cookie := none }, []) := rfl

example :
    add_refresh_token_on_login "/api/auth/login" "POST" none 200
      BodyJson.invalid (fun _ => none) (fun _ => none) "g1" [] 0
      defaultConfig = Except.error () := rfl

example :
    (refresh_access_token [] [] (some "") 0 (fun _ => "t")).1 =
      RefreshResult.http401 "REFRESH_TOKEN_MISSING" := by decide

example :
    (refresh_access_token [⟨5, true⟩] [⟨"a", 5, 200⟩] (some "a") 100
      (fun _ => "tok")).1 = RefreshResult.ok200 "tok" "bearer" := by decide

/-- When keys are pairwise distinct, looking up the key of a member finds
exactly that member. -/
theorem find_of_mem_unique {α β : Type} [DecidableEq β] (key : α → β)
    (l : List α) (x : α) (hpk : l.Pairwise (fun a b => key a ≠ key b))
    (hmem : x ∈ l) : l.find? (fun a => key a == key x) = some x := by
  induction l with
  | nil => cases hmem
  | cons a tl ih =>
    have h1 := List.pairwise_cons.mp hpk
    rcases List.mem_cons.mp hmem with h | h
    · subst h
      exact List.find?_cons_of_pos _ (by simp)
    · have hne : key a ≠ key x := h1.1 x h
      rw [List.find?_cons_of_neg _ (by simp [hne])]
      exact ih h1.2 h

/-- A lookup over keys none of which match returns nothing. -/
theorem find_of_absent {α β : Type} [DecidableEq β] (key : α → β)
    (l : List α) (k : β) (h : ∀ x ∈ l, key x ≠ k) :
    l.find? (fun a => key a == k) = none := by
  rw [List.find?_eq_none]
  intro x hx
  simpa using h x hx

/-- scalar_one_or_none finds a member row by its token under the
primary-key invariant. -/
theorem scalar_one_or_none_of_mem (store : List RefreshTokenRecord)
    (r : RefreshTokenRecord) (hpk : uniqueTokens store) (hmem : r ∈ store) :
    scalar_one_or_none store r.token = some r :=
  find_of_mem_unique RefreshTokenRecord.token store r hpk hmem

/-- scalar_one_or_none returns nothing when no row carries the token. -/
theorem scalar_one_or_none_of_absent (store : List RefreshTokenRecord)
    (t : String) (h : ∀ r ∈ store, r.token ≠ t) :
    scalar_one_or_none store t = none :=
  find_of_absent RefreshTokenRecord.token store t h

/-- After filtering a token out, looking that token up finds nothing. -/
theorem scalar_one_or_none_filter_self (store : List RefreshTokenRecord)
    (t : String) :
    scalar_one_or_none (store.filter (fun r => !(r.token == t))) t = none := by
  apply scalar_one_or_none_of_absent
  intro r hr
  have := (List.mem_filter.mp hr).2
  simpa using this

/-- Appending a row whose token is fresh makes it the lookup result for
that token. -/
theorem scalar_one_or_none_append_fresh (store : List RefreshTokenRecord)
    (rec : RefreshTokenRecord) (h : ∀ r ∈ store, r.token ≠ rec.token) :
    scalar_one_or_none (store ++ [rec]) rec.token = some rec := by
  induction store with
  | nil => simp [scalar_one_or_none]
  | cons a tl ih =>
    have hne : a.token ≠ rec.token := h a (List.mem_cons_self a tl)
    have htl : ∀ r ∈ tl, r.token ≠ rec.token := fun r hr =>
      h r (List.mem_cons_of_mem a hr)
    unfold scalar_one_or_none at *
    rw [List.cons_append, List.find?_cons_of_neg _ (by simp [hne])]
    exact ih htl

/-- validate_refresh_token on a token with no row: returns None and leaves
the store unchanged. -/
theorem validate_of_absent (store : List RefreshTokenRecord) (t : String)
    (now : Int) (h : ∀ r ∈ store, r.token ≠ t) :
    validate_refresh_token store t now = (none, store) := by
  unfold validate_refresh_token
  rw [scalar_one_or_none_of_absent store t h]

/-- validate_refresh_token on an unexpired member row: returns its user_id
and leaves the store unchanged. -/
theorem validate_of_valid (store : List RefreshTokenRecord) (t : String)
    (now : Int) (r : RefreshTokenRecord) (hpk : uniqueTokens store)
    (hmem : r ∈ store) (ht : r.token = t) (hexp : now < r.expires_at) :
    validate_refresh_token store t now = (some r.user_id, store) := by
  unfold validate_refresh_token
  rw [← ht, scalar_one_or_none_of_mem store r hpk hmem]
  simp [not_le.mpr hexp]

/-- validate_refresh_token on an expired member row: returns None and
deletes the row. -/
theorem validate_of_expired (store : List RefreshTokenRecord) (t : String)
    (now : Int) (r : RefreshTokenRecord) (hpk : uniqueTokens store)
    (hmem : r ∈ store) (ht : r.token = t) (hexp : r.expires_at ≤ now) :
    validate_refresh_token store t now =
      (none, store.filter (fun x => !(x.token == t))) := by
  unfold validate_refresh_token
  rw [← ht, scalar_one_or_none_of_mem store r hpk hmem]
  simp [hexp]

/-- revoke_refresh_token on a token with no row: returns false and leaves
the store unchanged. -/
theorem revoke_of_absent (store : List RefreshTokenRecord) (t : String)
    (h : ∀ r ∈ store, r.token ≠ t) :
    revoke_refresh_token store t = (false, store) := by
  unfold revoke_refresh_token
  rw [scalar_one_or_none_of_absent store t h]

/-- revoke_refresh_token when the lookup finds a row: returns true and
deletes that row. -/
theorem revoke_of_found (store : List RefreshTokenRecord) (t : String)
    (r : RefreshTokenRecord) (h : scalar_one_or_none store t = some r) :
    revoke_refresh_token store t =
      (true, store.filter (fun x => !(x.token == r.token))) := by
  unfold revoke_refresh_token
  rw [h]

/-- create_refresh_token with a fresh token string succeeds and appends the
new row, whose expiry is now plus the requested (or default) lifetime. -/
theorem create_of_fresh (store : List RefreshTokenRecord) (tok : String)
    (u : Nat) (now : Int) (ls : Option Int) (cfg : Config)
    (h : ∀ r ∈ store, r.token ≠ tok) :
    create_refresh_token store tok u now ls cfg =
      Except.ok (tok,
        store ++ [⟨tok, u, now + ls.getD cfg.refresh_token_lifetime⟩]) := by
  unfold create_refresh_token
  have : store.any (fun r => r.token == tok) = false := by
    rw [List.any_eq_false]
    intro r hr
    simpa using h r hr
  simp [this]

/-- The middleware's successful augmentation path: on a 200 login
response whose body carries a nonempty access token, with a decodable
JWT carrying a nonempty sub that parses as a UUID, and a fresh generated
token, the middleware returns a 200 response carrying the refresh-token
cookie and appends the new row; the lifetime is the remember-me one
exactly when the remember_me form field parses to true. -/
theorem mw_success_path (field : Option String) (access_tok sub_str : String)
    (uid : Nat) (gtok : String) (store : List RefreshTokenRecord) (now : Int)
    (cfg : Config) (jd : String → Option (Option String))
    (pu : String → Option Nat)
    (hat : access_tok ≠ "") (hjd : jd access_tok = some (some sub_str))
    (hsub : sub_str ≠ "") (hpu : pu sub_str = some uid)
    (hfresh : ∀ r ∈ store, r.token ≠ gtok) :
    add_refresh_token_on_login "/api/auth/login" "POST" field 200
      (BodyJson.obj (some access_tok)) jd pu gtok store now cfg =
    Except.ok
      ({ status := 200
         cookie := some (gtok, get_refresh_token_cookie_settings
           (some (if parse_remember_me field then
                    cfg.remember_me_refresh_token_lifetime
                  else cfg.refresh_token_lifetime)) cfg) },
       store ++ [⟨gtok, uid,
         now + (if parse_remember_me field then
                  cfg.remember_me_refresh_token_lifetime
                else cfg.refresh_token_lifetime)⟩]) := by
  have hat2 : (access_tok == "") = false := by simp [hat]
  have hsub2 : (sub_str == "") = false := by simp [hsub]
  unfold add_refresh_token_on_login
  cases hrm : parse_remember_me field <;>
    simp only [hrm, hat2, hjd, hsub2, hpu, Bool.false_eq_true, if_false,
      if_true, Bool.and_self, beq_self_eq_true] <;>
    simp only [create_of_fresh store gtok uid now _ cfg hfresh] <;>
    simp

/-- A filter and its complement split the length of a list. -/
theorem filter_length_split {α : Type} (l : List α) (p : α → Bool) :
    (l.filter p).length + (l.filter (fun a => !(p a))).length = l.length := by
  induction l with
  | nil => rfl
  | cons a tl ih =>
    cases h : p a <;> simp [List.filter_cons, h] <;> omega

/-- Claim C2: for every token string t, validate returns the stored
user_id when an unexpired record for t exists; returns None when no
record for t exists; and on a record with expires_at <= now returns None
and deletes the record, so a subsequent store lookup of t finds nothing. -/
theorem C2_validate_refresh_token_spec (store : List RefreshTokenRecord)
    (t : String) (now : Int) (r : RefreshTokenRecord)
    (hpk : uniqueTokens store) :
    ((∀ x ∈ store, x.token ≠ t) →
      validate_refresh_token store t now = (none, store)) ∧
    (r ∈ store → r.token = t → now < r.expires_at →
      validate_refresh_token store t now = (some r.user_id, store)) ∧
    (r ∈ store → r.token = t → r.expires_at ≤ now →
      (validate_refresh_token store t now).1 = none ∧
      scalar_one_or_none (validate_refresh_token store t now).2 t = none) := by
  refine ⟨fun h => validate_of_absent store t now h,
          fun hmem ht hexp => validate_of_valid store t now r hpk hmem ht hexp,
          fun hmem ht hexp => ?_⟩
  rw [validate_of_expired store t now r hpk hmem ht hexp]
  exact ⟨rfl, scalar_one_or_none_filter_self store t⟩

/-- Witness for C2 at the spec's expiry-boundary scenario: one record,
expired (expires_at 50 < now 100); validate returns None and the lazy
delete makes the subsequent lookup find nothing. -/
theorem C2_validate_refresh_token_spec_witness :
    (validate_refresh_token [⟨"a", 7, 50⟩] "a" 100).1 = none ∧
    scalar_one_or_none (validate_refresh_token [⟨"a", 7, 50⟩] "a" 100).2 "a" =
      none := by
  have h := C2_validate_refresh_token_spec [⟨"a", 7, 50⟩] "a" 100 ⟨"a", 7, 50⟩
    (by simp [uniqueTokens])
  exact h.2.2 (by simp) rfl (by decide)

/-- Claim C4: issuing a refresh token with a positive lifetime and
immediately validating the returned token string yields the issuing
user's id. The generated token string is fresh (48 bytes of fresh
entropy); a collision would instead surface as the store's duplicate-key
error. -/
theorem C4_issue_then_validate_roundtrip (store : List RefreshTokenRecord)
    (u : Nat) (L : Int) (now : Int) (tok : String) (cfg : Config)
    (hL : 0 < L) (hfresh : ∀ r ∈ store, r.token ≠ tok) :
    ∃ store2,
      create_refresh_token store tok u now (some L) cfg =
        Except.ok (tok, store2) ∧
      (validate_refresh_token store2 tok now).1 = some u := by
  refine ⟨store ++ [⟨tok, u, now + L⟩],
    create_of_fresh store tok u now (some L) cfg hfresh, ?_⟩
  have hlook := scalar_one_or_none_append_fresh store ⟨tok, u, now + L⟩ hfresh
  unfold validate_refresh_token
  rw [hlook]
  have hnle : ¬ (now + L ≤ now) := by omega
  simp [hnle]

/-- Witness for C4: a fresh token issued into the empty store with
lifetime 1 validates back to user 3. -/
theorem C4_issue_then_validate_roundtrip_witness :
    ∃ store2,
      create_refresh_token [] "g" 3 0 (some 1) defaultConfig =
        Except.ok ("g", store2) ∧
      (validate_refresh_token store2 "g" 0).1 = some 3 :=
  C4_issue_then_validate_roundtrip [] 3 1 0 "g" defaultConfig (by decide)
    (by simp)

/-- Claim C6: revoke_all(A) deletes exactly the rows with user_id A (its
result is their number, and deleted plus remaining account for the whole
table), keeps only rows of other users, and leaves every row of any other
user B untouched. -/
theorem C6_revoke_all_isolation (store : List RefreshTokenRecord)
    (A B : Nat) (hAB : A ≠ B) :
    (revoke_all_user_refresh_tokens store A).1 =
      (store.filter (fun r => r.user_id == A)).length ∧
    (revoke_all_user_refresh_tokens store A).2.length +
      (revoke_all_user_refresh_tokens store A).1 = store.length ∧
    (∀ r ∈ (revoke_all_user_refresh_tokens store A).2,
      r ∈ store ∧ r.user_id ≠ A) ∧
    (∀ r ∈ store, r.user_id = B →
      r ∈ (revoke_all_user_refresh_tokens store A).2) := by
  refine ⟨rfl, ?_, ?_, ?_⟩
  · have hsplit := filter_length_split store (fun r => r.user_id == A)
    show (store.filter (fun r => !(r.user_id == A))).length +
      (store.filter (fun r => r.user_id == A)).length = store.length
    omega
  · intro r hr
    have h := List.mem_filter.mp hr
    refine ⟨h.1, ?_⟩
    simpa using h.2
  · intro r hr hB
    apply List.mem_filter.mpr
    refine ⟨hr, ?_⟩
    simp [hB]
    omega

/-- Witness for C6 at the spec's scenario: user 1 has 3 tokens, user 2
has 2; revoke_all(1) reports 3 revoked rows and both rows of user 2
remain. -/
theorem C6_revoke_all_isolation_witness :
    (revoke_all_user_refresh_tokens
      [⟨"a1", 1, 10⟩, ⟨"a2", 1, 10⟩, ⟨"b1", 2, 10⟩, ⟨"a3", 1, 10⟩,
       ⟨"b2", 2, 10⟩] 1).1 = 3 ∧
    (⟨"b1", 2, 10⟩ : RefreshTokenRecord) ∈
      (revoke_all_user_refresh_tokens
        [⟨"a1", 1, 10⟩, ⟨"a2", 1, 10⟩, ⟨"b1", 2, 10⟩, ⟨"a3", 1, 10⟩,
         ⟨"b2", 2, 10⟩] 1).2 ∧
    (⟨"b2", 2, 10⟩ : RefreshTokenRecord) ∈
      (revoke_all_user_refresh_tokens
        [⟨"a1", 1, 10⟩, ⟨"a2", 1, 10⟩, ⟨"b1", 2, 10⟩, ⟨"a3", 1, 10⟩,
         ⟨"b2", 2, 10⟩] 1).2 := by
  have h := C6_revoke_all_isolation
    [⟨"a1", 1, 10⟩, ⟨"a2", 1, 10⟩, ⟨"b1", 2, 10⟩, ⟨"a3", 1, 10⟩,
     ⟨"b2", 2, 10⟩] 1 2 (by decide)
  refine ⟨h.1.trans (by decide), ?_, ?_⟩
  · exact h.2.2.2 ⟨"b1", 2, 10⟩ (by simp) rfl
  · exact h.2.2.2 ⟨"b2", 2, 10⟩ (by simp) rfl

/-- Claim C7: revoke(t) returns true exactly when a record for t existed
(and deletes it); revoking the same token again returns false, without an
error, and leaves the store as the first call left it. -/
theorem C7_revoke_idempotent (store : List RefreshTokenRecord) (t : String) :
    ((revoke_refresh_token store t).1 = true ↔ ∃ r ∈ store, r.token = t) ∧
    (revoke_refresh_token (revoke_refresh_token store t).2 t).1 = false ∧
    (revoke_refresh_token (revoke_refresh_token store t).2 t).2 =
      (revoke_refresh_token store t).2 := by
  rcases h : scalar_one_or_none store t with _ | r
  · have habs : ∀ r ∈ store, r.token ≠ t := by
      intro r hr
      have := List.find?_eq_none.mp h r hr
      simpa using this
    have e1 := revoke_of_absent store t habs
    refine ⟨?_, ?_, ?_⟩
    · rw [e1]
      constructor
      · intro hft
        exact absurd hft Bool.false_ne_true
      · rintro ⟨x, hx, hxt⟩
        exact absurd hxt (habs x hx)
    · rw [e1]
      show (revoke_refresh_token store t).1 = false
      rw [e1]
    · rw [e1]
      show (revoke_refresh_token store t).2 = store
      rw [e1]
  · have hrt : r.token = t := by
      have := List.find?_some h
      simpa using this
    have hmem : r ∈ store := List.mem_of_find?_eq_some h
    have e2 := revoke_of_found store t r h
    have habs2 : ∀ x ∈ store.filter (fun x => !(x.token == r.token)),
        x.token ≠ t := by
      intro x hx
      have := (List.mem_filter.mp hx).2
      rw [hrt] at this
      simpa using this
    have e3 := revoke_of_absent _ t habs2
    refine ⟨?_, ?_, ?_⟩
    · rw [e2]
      exact ⟨fun _ => ⟨r, hmem, hrt⟩, fun _ => rfl⟩
    · rw [e2]
      show (revoke_refresh_token
        (store.filter (fun x => !(x.token == r.token))) t).1 = false
      rw [e3]
    · rw [e2]
      show (revoke_refresh_token
          (store.filter (fun x => !(x.token == r.token))) t).2 =
        store.filter (fun x => !(x.token == r.token))
      rw [e3]

/-- Claim C8: the cookie-settings function is a pure function of the
lifetime and the configuration; its result always has httponly true,
path "/api/auth" and max_age equal to the given lifetime, with name,
secure and samesite taken from the configuration. -/
theorem C8_cookie_settings_spec (L : Int) (cfg : Config) :
    (get_refresh_token_cookie_settings (some L) cfg).httponly = true ∧
    (get_refresh_token_cookie_settings (some L) cfg).path = "/api/auth" ∧
    (get_refresh_token_cookie_settings (some L) cfg).max_age = L ∧
    (get_refresh_token_cookie_settings (some L) cfg).key =
      cfg.refresh_token_cookie_name ∧
    (get_refresh_token_cookie_settings (some L) cfg).secure =
      cfg.refresh_token_cookie_secure ∧
    (get_refresh_token_cookie_settings (some L) cfg).samesite =
      cfg.refresh_token_cookie_samesite :=
  ⟨rfl, rfl, rfl, rfl, rfl, rfl⟩

/-- Claim C9: with the lifetime argument omitted (None), create and
cookie-settings both fall back to config.refresh_token_lifetime: the
stored record's expiry window equals the cookie's max_age. -/
theorem C9_default_lifetime_agreement (store : List RefreshTokenRecord)
    (tok : String) (u : Nat) (now : Int) (cfg : Config)
    (hfresh : ∀ r ∈ store, r.token ≠ tok) :
    ∃ store2,
      create_refresh_token store tok u now none cfg =
        Except.ok (tok, store2) ∧
      ∃ rec, scalar_one_or_none store2 tok = some rec ∧
        rec.expires_at - now =
          (get_refresh_token_cookie_settings none cfg).max_age ∧
        (get_refresh_token_cookie_settings none cfg).max_age =
          cfg.refresh_token_lifetime := by
  refine ⟨store ++ [⟨tok, u, now + cfg.refresh_token_lifetime⟩],
    create_of_fresh store tok u now none cfg hfresh,
    ⟨tok, u, now + cfg.refresh_token_lifetime⟩,
    scalar_one_or_none_append_fresh store _ hfresh, ?_, rfl⟩
  show now + cfg.refresh_token_lifetime - now = cfg.refresh_token_lifetime
  omega

/-- Witness for C9: with the default configuration, the stored window and
the cookie max_age are both 604800. -/
theorem C9_default_lifetime_agreement_witness :
    ∃ store2,
      create_refresh_token [] "g" 3 0 none defaultConfig =
        Except.ok ("g", store2) ∧
      ∃ rec, scalar_one_or_none store2 "g" = some rec ∧
        rec.expires_at - 0 =
          (get_refresh_token_cookie_settings none defaultConfig).max_age ∧
        (get_refresh_token_cookie_settings none defaultConfig).max_age =
          defaultConfig.refresh_token_lifetime :=
  C9_default_lifetime_agreement [] "g" 3 0 defaultConfig (by simp)

/-- Claim C10: validating a token whose record is strictly unexpired
performs no write: the result is the record's user_id and the store after
the call is exactly the store before it. -/
theorem C10_validate_no_write_on_valid (store : List RefreshTokenRecord)
    (t : String) (now : Int) (r : RefreshTokenRecord)
    (hpk : uniqueTokens store) (hmem : r ∈ store) (ht : r.token = t)
    (hexp : now < r.expires_at) :
    validate_refresh_token store t now = (some r.user_id, store) :=
  validate_of_valid store t now r hpk hmem ht hexp

/-- Witness for C10: a two-row store where the looked-up token is
unexpired; the second row (and the first) survive unchanged. -/
theorem C10_validate_no_write_on_valid_witness :
    validate_refresh_token [⟨"a", 7, 200⟩, ⟨"b", 8, 30⟩] "a" 100 =
      (some 7, [⟨"a", 7, 200⟩, ⟨"b", 8, 30⟩]) :=
  C10_validate_no_write_on_valid [⟨"a", 7, 200⟩, ⟨"b", 8, 30⟩] "a" 100
    ⟨"a", 7, 200⟩ (by simp [uniqueTokens]) (by simp) rfl (by decide)

/-- Claim C1 counterexample: with the refresh-token cookie present but
holding the empty string (a value that is not a stored refresh token, so
the claim as stated demands detail REFRESH_TOKEN_INVALID), the handler
answers REFRESH_TOKEN_MISSING, because the guard `if not refresh_token`
(auth_routes.py line 151) uses Python truthiness and also fires on "". -/
theorem C1_empty_cookie_counterexample :
    (refresh_access_token [] [] (some "") 0 (fun _ => "t")).1 =
      RefreshResult.http401 "REFRESH_TOKEN_MISSING" ∧
    RefreshResult.http401 "REFRESH_TOKEN_MISSING" ≠
      RefreshResult.http401 "REFRESH_TOKEN_INVALID" :=
  ⟨rfl, by decide⟩

/-- Claim C1 (amended): POST /api/auth/refresh fails 401
REFRESH_TOKEN_MISSING when the cookie is absent or its value is the
empty string; fails 401 REFRESH_TOKEN_INVALID when the nonempty cookie
value has no stored record or only an expired one; fails 401
USER_INACTIVE when the token is valid but the referenced user is missing
or inactive; otherwise returns 200 with an access token and token_type
"bearer". -/
theorem C1_refresh_endpoint_spec (users : List User)
    (store : List RefreshTokenRecord) (cookie : Option String) (now : Int)
    (wt : Nat → String) (hpk : uniqueTokens store)
    (hupk : users.Pairwise (fun a b => a.id ≠ b.id)) :
    (cookie = none →
      refresh_access_token users store cookie now wt =
        (RefreshResult.http401 "REFRESH_TOKEN_MISSING", store)) ∧
    (cookie = some "" →
      refresh_access_token users store cookie now wt =
        (RefreshResult.http401 "REFRESH_TOKEN_MISSING", store)) ∧
    (∀ t, cookie = some t → t ≠ "" → (∀ r ∈ store, r.token ≠ t) →
      refresh_access_token users store cookie now wt =
        (RefreshResult.http401 "REFRESH_TOKEN_INVALID", store)) ∧
    (∀ t r, cookie = some t → t ≠ "" → r ∈ store → r.token = t →
      r.expires_at ≤ now →
      (refresh_access_token users store cookie now wt).1 =
        RefreshResult.http401 "REFRESH_TOKEN_INVALID") ∧
    (∀ t r, cookie = some t → t ≠ "" → r ∈ store → r.token = t →
      now < r.expires_at → (∀ u ∈ users, u.id ≠ r.user_id) →
      refresh_access_token users store cookie now wt =
        (RefreshResult.http401 "USER_INACTIVE", store)) ∧
    (∀ t r u, cookie = some t → t ≠ "" → r ∈ store → r.token = t →
      now < r.expires_at → u ∈ users → u.id = r.user_id →
      u.is_active = false →
      refresh_access_token users store cookie now wt =
        (RefreshResult.http401 "USER_INACTIVE", store)) ∧
    (∀ t r u, cookie = some t → t ≠ "" → r ∈ store → r.token = t →
      now < r.expires_at → u ∈ users → u.id = r.user_id →
      u.is_active = true →
      refresh_access_token users store cookie now wt =
        (RefreshResult.ok200 (wt u.id) "bearer", store)) := by
  refine ⟨?_, ?_, ?_, ?_, ?_, ?_, ?_⟩
  · rintro rfl
    rfl
  · rintro rfl
    rfl
  · rintro t rfl hne habs
    have ht2 : (t == "") = false := by simp [hne]
    unfold refresh_access_token
    simp only [ht2, Bool.false_eq_true, if_false]
    rw [validate_of_absent store t now habs]
  · rintro t r rfl hne hmem hrt hexp
    have ht2 : (t == "") = false := by simp [hne]
    unfold refresh_access_token
    simp only [ht2, Bool.false_eq_true, if_false]
    rw [validate_of_expired store t now r hpk hmem hrt hexp]
  · rintro t r rfl hne hmem hrt hexp habsu
    have ht2 : (t == "") = false := by simp [hne]
    have hfu : users.find? (fun u => u.id == r.user_id) = none :=
      find_of_absent User.id users r.user_id habsu
    unfold refresh_access_token
    simp only [ht2, Bool.false_eq_true, if_false]
    rw [validate_of_valid store t now r hpk hmem hrt hexp]
    simp [hfu]
  · rintro t r u rfl hne hmem hrt hexp humem huid hact
    have ht2 : (t == "") = false := by simp [hne]
    have hfu : users.find? (fun x => x.id == r.user_id) = some u := by
      rw [← huid]
      exact find_of_mem_unique User.id users u hupk humem
    unfold refresh_access_token
    simp only [ht2, Bool.false_eq_true, if_false]
    rw [validate_of_valid store t now r hpk hmem hrt hexp]
    simp [hfu, hact]
  · rintro t r u rfl hne hmem hrt hexp humem huid hact
    have ht2 : (t == "") = false := by simp [hne]
    have hfu : users.find? (fun x => x.id == r.user_id) = some u := by
      rw [← huid]
      exact find_of_mem_unique User.id users u hupk humem
    unfold refresh_access_token
    simp only [ht2, Bool.false_eq_true, if_false]
    rw [validate_of_valid store t now r hpk hmem hrt hexp]
    simp [hfu, hact]

/-- Witness for C1: an active user with a valid unexpired token receives
200 with the freshly minted access token and token_type "bearer". -/
theorem C1_refresh_endpoint_spec_witness :
    refresh_access_token [⟨5, true⟩] [⟨"a", 5, 200⟩] (some "a") 100
      (fun _ => "tok") =
    (RefreshResult.ok200 "tok" "bearer", [⟨"a", 5, 200⟩]) := by
  have h := C1_refresh_endpoint_spec [⟨5, true⟩] [⟨"a", 5, 200⟩] (some "a")
    100 (fun _ => "tok") (by simp [uniqueTokens]) (by simp)
  exact h.2.2.2.2.2.2 "a" ⟨"a", 5, 200⟩ ⟨5, true⟩ rfl (by decide) (by simp)
    rfl (by decide) (by simp) rfl rfl

/-- Claim C3 (code bug): the middleware swallows step 4-7 failures. At a
200 login response whose JSON body lacks access_token, whose JWT fails
to decode, whose payload lacks a usable sub, or whose store insert fails
(duplicate primary key), `except Exception: pass` (middleware.py lines
393-395) falls through to re-wrap the original body: the client gets
status 200 with no refresh-token cookie, not the 500-class error the
claim demands. (Only a nonempty unparseable body escapes as an
exception, because line 399 re-raises outside the try.) -/
theorem C3_middleware_silent_on_failure :
    add_refresh_token_on_login "/api/auth/login" "POST" none 200
      (BodyJson.obj none) (fun _ => none) (fun _ => none) "g1" [] 0
      defaultConfig = Except.ok ({ status := 200, cookie := none }, []) ∧
    add_refresh_token_on_login "/api/auth/login" "POST" none 200
      (BodyJson.obj (some "at")) (fun _ => none) (fun _ => none) "g1" [] 0
      defaultConfig = Except.ok ({ status := 200, cookie := none }, []) ∧
    add_refresh_token_on_login "/api/auth/login" "POST" none 200
      (BodyJson.obj (some "at")) (fun _ => some none) (fun _ => none) "g1"
      [] 0 defaultConfig =
      Except.ok ({ status := 200, cookie := none }, []) ∧
    add_refresh_token_on_login "/api/auth/login" "POST" none 200
      (BodyJson.obj (some "at")) (fun _ => some (some "u")) (fun _ => some 1)
      "g1" [⟨"g1", 9, 99⟩] 0 defaultConfig =
      Except.ok ({ status := 200, cookie := none }, [⟨"g1", 9, 99⟩]) :=
  ⟨rfl, rfl, rfl, rfl⟩

/-- Claim C5 counterexample: with the form field remember_me = "True"
(which is not the literal "true", so the claim as stated demands the
default Max-Age 604800), the middleware uses the remember-me lifetime:
the Set-Cookie Max-Age is 2592000, because the code lowercases the field
before comparing (middleware.py line 334). -/
theorem C5_remember_me_counterexample :
    mw_cookie_max_age (add_refresh_token_on_login "/api/auth/login" "POST"
      (some "True") 200 (BodyJson.obj (some "at")) (fun _ => some (some "u"))
      (fun _ => some 3) "g1" [] 0 defaultConfig) = some 2592000 ∧
    (2592000 : Int) ≠ 604800 :=
  ⟨rfl, by decide⟩

/-- Claim C5 (amended): on a successful login augmentation with the
default configuration, the refresh token and its Set-Cookie use the
remember-me lifetime 2592000 when the remember_me form value, lowercased,
equals "true"; when the field is absent or lowercases to anything else,
they use the default lifetime 604800. -/
theorem C5_remember_me_lifetime (field : Option String)
    (access_tok sub_str : String) (uid : Nat) (gtok : String)
    (store : List RefreshTokenRecord) (now : Int)
    (jd : String → Option (Option String)) (pu : String → Option Nat)
    (hat : access_tok ≠ "") (hjd : jd access_tok = some (some sub_str))
    (hsub : sub_str ≠ "") (hpu : pu sub_str = some uid)
    (hfresh : ∀ r ∈ store, r.token ≠ gtok) :
    ((∃ v, field = some v ∧ lower v = "true") →
      add_refresh_token_on_login "/api/auth/login" "POST" field 200
        (BodyJson.obj (some access_tok)) jd pu gtok store now defaultConfig =
      Except.ok
        ({ status := 200
           cookie := some (gtok,
             get_refresh_token_cookie_settings (some 2592000) defaultConfig) },
         store ++ [⟨gtok, uid, now + 2592000⟩]) ∧
      (get_refresh_token_cookie_settings (some 2592000) defaultConfig).max_age
        = 2592000) ∧
    ((∀ v, field = some v → lower v ≠ "true") →
      add_refresh_token_on_login "/api/auth/login" "POST" field 200
        (BodyJson.obj (some access_tok)) jd pu gtok store now defaultConfig =
      Except.ok
        ({ status := 200
           cookie := some (gtok,
             get_refresh_token_cookie_settings (some 604800) defaultConfig) },
         store ++ [⟨gtok, uid, now + 604800⟩]) ∧
      (get_refresh_token_cookie_settings (some 604800) defaultConfig).max_age
        = 604800) := by
  have hmw := mw_success_path field access_tok sub_str uid gtok store now
    defaultConfig jd pu hat hjd hsub hpu hfresh
  constructor
  · rintro ⟨v, rfl, hv⟩
    have hrm : parse_remember_me (some v) = true := by
      simp [parse_remember_me, hv]
    rw [hrm] at hmw
    simp only [if_true] at hmw
    exact ⟨hmw, rfl⟩
  · intro hother
    have hrm : parse_remember_me field = false := by
      cases field with
      | none => rfl
      | some v =>
        have hv := hother v rfl
        simp [parse_remember_me, hv]
    rw [hrm] at hmw
    simp only [Bool.false_eq_true, if_false] at hmw
    exact ⟨hmw, rfl⟩

/-- Witness for C5: remember_me = "true" on a successful login issues the
cookie with Max-Age 2592000 and stores a token expiring 2592000 seconds
later. -/
theorem C5_remember_me_lifetime_witness :
    add_refresh_token_on_login "/api/auth/login" "POST" (some "true") 200
      (BodyJson.obj (some "at")) (fun _ => some (some "u")) (fun _ => some 3)
      "g1" [] 0 defaultConfig =
    Except.ok
      ({ status := 200
         cookie := some ("g1",
           get_refresh_token_cookie_settings (some 2592000) defaultConfig) },
       [⟨"g1", 3, 2592000⟩]) := by
  have h := C5_remember_me_lifetime (some "true") "at" "u" 3 "g1" [] 0
    (fun _ => some (some "u")) (fun _ => some 3) (by decide) rfl (by decide)
    rfl (by simp)
  simpa using (h.1 ⟨"true", rfl, by decide⟩).1

end LearnFastapiAuth
